import Mathlib

/-!
Shallow embedding of the ekitilaw-project core: the tagged-text importer
from laws/admin.py (save_item, run_import_logic, the import_from_ai_text
admin action) and the search aggregator from laws/views.py, together with
the field layout of laws/models.py that the importer reads.

Database rows created by one import run for the selected Law are modelled
as lists of records; Django object creation is list append, and the
surrounding transaction is modelled by returning either the new list of
rows or the unchanged prior rows.
-/

/-! ## Data model (laws/models.py) -/

/-- A persisted Section row: the law FK is implicit (all rows below belong
to the one Law being imported); the remaining columns are as declared on
the Section model. -/
structure SectionRec where
  part_heading : String
  chapter_heading : String
  section_number : String
  section_title : String
  content : String
deriving Repr, DecidableEq

/-- A persisted Schedule row. -/
structure ScheduleRec where
  schedule_number : String
  title : String
  content : String
deriving Repr, DecidableEq

/-- A persisted Appendix row. -/
structure AppendixRec where
  appendix_number : String
  title : String
  content : String
deriving Repr, DecidableEq

/-- The descendant rows of one Law (its sections, schedules, appendices). -/
structure LawDB where
  sections : List SectionRec
  schedules : List ScheduleRec
  appendices : List AppendixRec
deriving Repr, DecidableEq

def emptyDB : LawDB := ⟨[], [], []⟩

def totalRecords (db : LawDB) : Nat :=
  db.sections.length + db.schedules.length + db.appendices.length

/-- Field names declared inside the body of class Law in laws/models.py
(lines 10 to 15 of the file). -/
def lawModelFields : List String :=
  ["title", "slug", "enactment_date", "pdf_file", "source_notes", "extracted_text"]

/-- Model-field assignments that appear at module level of laws/models.py,
outside every class body (line 50 of the file). -/
def modelsModuleLevelFields : List String := ["ai_prepared_text"]

/-! ## The item dictionary built by the parser (a Python dict);
absent keys are Option.none, and reading an absent key with
dict.get(key, empty-string) is Option.getD with the empty string. -/

inductive ItemType
  | sect
  | sched
  | appx
deriving Repr, DecidableEq

structure Item where
  type : ItemType
  part : String := ""
  chapter : String := ""
  number : String := ""
  title : Option String := none
  content : Option String := none
deriving Repr, DecidableEq

/-- save_item from laws/admin.py: persists the item being built, or does
nothing when the item is None. -/
def save_item (item : Option Item) (db : LawDB) : LawDB :=
  match item with
  | none => db
  | some it =>
    match it.type with
    | .sect =>
      { db with
        sections := db.sections ++
          [⟨it.part, it.chapter, it.number, it.title.getD "", it.content.getD ""⟩] }
    | .sched =>
      { db with
        schedules := db.schedules ++ [⟨it.number, it.title.getD "", it.content.getD ""⟩] }
    | .appx =>
      { db with
        appendices := db.appendices ++ [⟨it.number, it.title.getD "", it.content.getD ""⟩] }

/-! ## Line splitting (Python str.splitlines on newline and carriage
return terminators: a line is emitted at each terminator, and a final
unterminated line is emitted only when nonempty). -/

def splitlinesAux : List Char → List Char → List (List Char)
  | [], [] => []
  | [], acc => [acc.reverse]
  | '\r' :: '\n' :: rest, acc => acc.reverse :: splitlinesAux rest []
  | '\n' :: rest, acc => acc.reverse :: splitlinesAux rest []
  | '\r' :: rest, acc => acc.reverse :: splitlinesAux rest []
  | c :: rest, acc => splitlinesAux rest (c :: acc)

def splitlines (s : String) : List String :=
  (splitlinesAux s.data []).map fun cs => ⟨cs⟩

/-! ## String primitives of the parser, implemented by structural
recursion over the character list so that concrete runs reduce. -/

/-- Python str.strip with no argument: remove leading and trailing
whitespace characters. -/
def pyStrip (s : String) : String :=
  ⟨((s.data.dropWhile Char.isWhitespace).reverse.dropWhile Char.isWhitespace).reverse⟩

/-- Python str.startswith. -/
def strStartsWith (s pre : String) : Bool :=
  pre.data.isPrefixOf s.data

/-- Python newline.join of the content buffer. -/
def joinNL : List String → String
  | [] => ""
  | [x] => x
  | x :: xs => x ++ "\n" ++ joinNL xs

/-! ## Directive classification: the if/elif chain that each of the four
parser loops applies to the stripped line, in source order. -/

inductive Kind
  | kpart
  | kchapter
  | ksection
  | ktitle
  | kschedule
  | kappendix
  | kother
deriving Repr, DecidableEq

def lineKind (ls : String) : Kind :=
  if strStartsWith ls "@PART " then .kpart
  else if strStartsWith ls "@CHAPTER " then .kchapter
  else if strStartsWith ls "@SECTION " then .ksection
  else if strStartsWith ls "@TITLE " then .ktitle
  else if strStartsWith ls "@SCHEDULE " then .kschedule
  else if strStartsWith ls "@APPENDIX " then .kappendix
  else .kother

/-- Python line_stripped.replace(tag, empty, 1): every call site first
checks line_stripped.startswith(tag), so the unique first occurrence is
the leading one and the replacement drops exactly the tag prefix. -/
def dropTag (tag ls : String) : String := ⟨ls.data.drop tag.data.length⟩

/-- Loop state of each parser pass: current_part, current_chapter,
current_item, content_buffer. -/
structure PState where
  part : String := ""
  chapter : String := ""
  item : Option Item := none
  buffer : List String := []
deriving Repr, DecidableEq

/-! ## Pass 1 (admin.py lines 75 to 131): saves the current item on the
five record or scope tags, resets the new item content to the empty
string inside the tag_found block, never flushes at end of input. -/

def pass1Step (db : LawDB) (s : PState) (line : String) : LawDB × PState :=
  let ls := pyStrip line
  match lineKind ls with
  | .kpart =>
    (save_item s.item db,
     { s with
       item := none,
       buffer := [],
       part := dropTag "@PART " ls })
  | .kchapter =>
    (save_item s.item db,
     { s with
       item := none,
       buffer := [],
       chapter := dropTag "@CHAPTER " ls })
  | .ksection =>
    (save_item s.item db,
     { s with
       buffer := [],
       item := some
         { type := .sect,
           part := s.part,
           chapter := s.chapter,
           number := dropTag "@SECTION " ls,
           content := some "" } })
  | .ktitle =>
    (db,
     { s with
       buffer := [],
       item := s.item.map fun it =>
         { it with
           title := some (dropTag "@TITLE " ls),
           content := some "" } })
  | .kschedule =>
    (save_item s.item db,
     { s with
       buffer := [],
       item := some
         { type := .sched,
           number := dropTag "@SCHEDULE " ls,
           content := some "" } })
  | .kappendix =>
    (save_item s.item db,
     { s with
       buffer := [],
       item := some
         { type := .appx,
           number := dropTag "@APPENDIX " ls,
           content := some "" } })
  | .kother =>
    if s.item.isSome then (db, { s with buffer := s.buffer ++ [line] }) else (db, s)

def pass1 (db : LawDB) (lines : List String) : LawDB :=
  (lines.foldl (fun p line => pass1Step p.1 p.2 line) (db, ({} : PState))).1

/-! ## Pass 2 (admin.py lines 136 to 185): same saving points; after the
tag chain, a line starting with the at sign moves a nonempty buffer into
the current item content; the last open item is flushed at end of input. -/

def pass2Step (db : LawDB) (s : PState) (line : String) : LawDB × PState :=
  let ls := pyStrip line
  let step : LawDB × PState :=
    match lineKind ls with
    | .kpart =>
      (save_item s.item db,
       { s with
         item := none,
         buffer := [],
         part := dropTag "@PART " ls })
    | .kchapter =>
      (save_item s.item db,
       { s with
         item := none,
         buffer := [],
         chapter := dropTag "@CHAPTER " ls })
    | .ksection =>
      (save_item s.item db,
       { s with
         buffer := [],
         item := some
           { type := .sect,
             part := s.part,
             chapter := s.chapter,
             number := dropTag "@SECTION " ls } })
    | .ktitle =>
      (db,
       { s with
         item := s.item.map fun it => { it with title := some (dropTag "@TITLE " ls) } })
    | .kschedule =>
      (save_item s.item db,
       { s with
         buffer := [],
         item := some { type := .sched, number := dropTag "@SCHEDULE " ls } })
    | .kappendix =>
      (save_item s.item db,
       { s with
         buffer := [],
         item := some { type := .appx, number := dropTag "@APPENDIX " ls } })
    | .kother =>
      if s.item.isSome then (db, { s with buffer := s.buffer ++ [line] }) else (db, s)
  let db2 := step.1
  let s2 := step.2
  if strStartsWith ls "@" && !s2.buffer.isEmpty && s2.item.isSome then
    (db2,
     { s2 with
       buffer := [],
       item := s2.item.map fun it =>
         { it with content := some (pyStrip (joinNL s2.buffer)) } })
  else
    (db2, s2)

def pass2 (db : LawDB) (lines : List String) : LawDB :=
  let r := lines.foldl (fun p line => pass2Step p.1 p.2 line) (db, ({} : PState))
  match r.2.item with
  | some it =>
    save_item (some { it with content := some (pyStrip (joinNL r.2.buffer)) }) r.1
  | none => r.1

/-! ## Pass 3 (admin.py lines 190 to 232): like pass 1 but without the
content reset, without clearing the buffer on part and chapter tags, and
with no flush at end of input; its trailing conditional is a no-op. -/

def pass3Step (db : LawDB) (s : PState) (line : String) : LawDB × PState :=
  let ls := pyStrip line
  match lineKind ls with
  | .kpart =>
    (save_item s.item db,
     { s with
       item := none,
       part := dropTag "@PART " ls })
  | .kchapter =>
    (save_item s.item db,
     { s with
       item := none,
       chapter := dropTag "@CHAPTER " ls })
  | .ksection =>
    (save_item s.item db,
     { s with
       buffer := [],
       item := some
         { type := .sect,
           part := s.part,
           chapter := s.chapter,
           number := dropTag "@SECTION " ls } })
  | .ktitle =>
    (db,
     { s with
       item := s.item.map fun it => { it with title := some (dropTag "@TITLE " ls) } })
  | .kschedule =>
    (save_item s.item db,
     { s with
       buffer := [],
       item := some { type := .sched, number := dropTag "@SCHEDULE " ls } })
  | .kappendix =>
    (save_item s.item db,
     { s with
       buffer := [],
       item := some { type := .appx, number := dropTag "@APPENDIX " ls } })
  | .kother =>
    if s.item.isSome then (db, { s with buffer := s.buffer ++ [line] }) else (db, s)

def pass3 (db : LawDB) (lines : List String) : LawDB :=
  (lines.foldl (fun p line => pass3Step p.1 p.2 line) (db, ({} : PState))).1

/-! ## Pass 4 (admin.py lines 236 to 291): the final rewritten logic. On
a new structural tag it first flushes the previous item (joining and
stripping its buffered content), then installs the new item; a part tag
resets the chapter label; the last open item is flushed at end of input. -/

def flush4 (db : LawDB) (s : PState) : LawDB :=
  match s.item with
  | some it =>
    save_item (some { it with content := some (pyStrip (joinNL s.buffer)) }) db
  | none => db

def pass4Step (db : LawDB) (s : PState) (line : String) : LawDB × PState :=
  let ls := pyStrip line
  match lineKind ls with
  | .kpart =>
    (flush4 db s,
     { part := dropTag "@PART " ls,
       chapter := "",
       item := none,
       buffer := [] })
  | .kchapter =>
    (flush4 db s,
     { part := s.part,
       chapter := dropTag "@CHAPTER " ls,
       item := none,
       buffer := [] })
  | .ksection =>
    (flush4 db s,
     { part := s.part,
       chapter := s.chapter,
       item := some
         { type := .sect,
           part := s.part,
           chapter := s.chapter,
           number := dropTag "@SECTION " ls },
       buffer := [] })
  | .ktitle =>
    (db,
     { s with
       item := s.item.map fun it => { it with title := some (dropTag "@TITLE " ls) } })
  | .kschedule =>
    (flush4 db s,
     { s with
       item := some { type := .sched, number := dropTag "@SCHEDULE " ls },
       buffer := [] })
  | .kappendix =>
    (flush4 db s,
     { s with
       item := some { type := .appx, number := dropTag "@APPENDIX " ls },
       buffer := [] })
  | .kother =>
    if s.item.isSome then (db, { s with buffer := s.buffer ++ [line] }) else (db, s)

def pass4 (db : LawDB) (lines : List String) : LawDB :=
  let r := lines.foldl (fun p line => pass4Step p.1 p.2 line) (db, ({} : PState))
  flush4 r.1 r.2

/-! ## run_import_logic from laws/admin.py: raises on empty or absent
text, otherwise runs all four leftover parser loops in sequence over the
same lines, each appending the rows it saves. -/

def importEmptyMsg : String :=
  "The \x27AI-Prepared Text\x27 field is empty. Cannot import."

def importResult (t : String) : LawDB :=
  let lines := splitlines t
  pass4 (pass3 (pass2 (pass1 emptyDB lines) lines) lines) lines

/-- The ai_prepared_text value read from the Law object is the input;
Python falsiness of the text covers both None and the empty string. -/
def run_import_logic (ai_prepared_text : Option String) : Except String LawDB :=
  match ai_prepared_text with
  | none => .error importEmptyMsg
  | some t => if t = "" then .error importEmptyMsg else .ok (importResult t)

/-- The import_from_ai_text admin action on one selected Law: inside one
atomic transaction it deletes all existing descendant rows and reruns
run_import_logic, so on success the descendant rows are exactly the
freshly imported ones; on any exception the transaction rolls back,
leaving the prior rows, and the action reports the error message shown
to the operator. -/
def import_from_ai_text (db : LawDB) (ai : Option String) : LawDB × Option String :=
  match run_import_logic ai with
  | .ok newdb => (newdb, none)
  | .error e =>
    (db, some ("An error occurred: " ++ e ++ ". Transaction has been rolled back."))

/-! ## Search aggregator (laws/views.py) -/

/-- One hit returned by an external search collection: the law key is the
Document id reference when present, and body stands for the remaining
indexed payload of the hit. -/
structure Hit where
  law : Option Nat
  body : String
deriving Repr, DecidableEq

/-- The three external search collections and the hits each returns for
the current query. -/
structure Collections where
  sections : List Hit
  schedules : List Hit
  appendices : List Hit
deriving Repr, DecidableEq

/-- A row of the Law table relevant to hydration. -/
structure LawRow where
  id : Nat
  title : String
  slug : String
deriving Repr, DecidableEq

/-- A hydrated search result entry as built by the view. -/
structure ResultHit where
  law : Option Nat
  body : String
  result_type : String
  law_title : String
  law_slug : String
deriving Repr, DecidableEq

/-- The concatenation of the three hit lists in fixed collection order,
each hit tagged with its result_type. -/
def taggedHits (c : Collections) : List (Hit × String) :=
  c.sections.map (fun h => (h, "Section")) ++
  c.schedules.map (fun h => (h, "Schedule")) ++
  c.appendices.map (fun h => (h, "Appendix"))

/-- The set of unique Law ids present on hits that carry a law key. -/
def lawIds (ths : List (Hit × String)) : List Nat :=
  (ths.filterMap fun p => p.1.law).dedup

/-- A primary-key lookup in the Law table. -/
def findLaw (db : List LawRow) (i : Nat) : Option LawRow :=
  db.find? fun r => r.id == i

/-- Law.objects.in_bulk(ids): the dictionary from requested ids to the
existing Law rows among them. -/
def inBulk (db : List LawRow) (ids : List Nat) (i : Nat) : Option LawRow :=
  if i ∈ ids then findLaw db i else none

/-- dict.get on the in_bulk dictionary with key hit.get(law): an absent
law key gives None. -/
def dictGet (m : Nat → Option LawRow) : Option Nat → Option LawRow
  | none => none
  | some i => m i

/-- Resolution of an optional Document id directly against the Law table
(what hydration effectively consults). -/
def lawLookup (db : List LawRow) : Option Nat → Option LawRow
  | none => none
  | some i => findLaw db i

/-- Hydration of one tagged hit: attach the resolved title and slug, or
the sentinel title and an empty slug when the reference does not resolve. -/
def hydrate (lookup : Option Nat → Option LawRow) (p : Hit × String) : ResultHit :=
  match lookup p.1.law with
  | some row => ⟨p.1.law, p.1.body, p.2, row.title, row.slug⟩
  | none => ⟨p.1.law, p.1.body, p.2, "Error: Law not found", ""⟩

/-- The search view: returns the hydrated result list and the list of
external collection calls issued. An empty query short-circuits with no
results and no calls; otherwise the three collections are queried in
fixed order and every hit is tagged and hydrated. -/
def search (query : String) (c : Collections) (db : List LawRow) :
    List ResultHit × List String :=
  if query = "" then ([], [])
  else
    let ths := taggedHits c
    (ths.map (hydrate (dictGet (inBulk db (lawIds ths)))),
     ["sections", "schedules", "appendices"])

/-! ## Concrete import inputs used in the theorems -/

def exA : String := "@SECTION S.1\nBody text."

def exC3 : String := "@PART PART I\n@CHAPTER CH 1\n@SECTION S.1\n@TITLE Citation\nBody text."

def exC4 : String := "@CHAPTER C1\n@PART P2\n@SECTION S.5\nBody"

/-- Count of record-opening directive lines in the input. -/
def countOpenDirectives (t : String) : Nat :=
  ((splitlines t).filter fun l =>
    match lineKind (pyStrip l) with
    | .ksection => true
    | .kschedule => true
    | .kappendix => true
    | _ => false).length

/-! ## Helper lemmas shared by the search theorems -/

theorem hydrate_law_eq (lookup : Option Nat → Option LawRow) (p : Hit × String) :
    (hydrate lookup p).law = p.1.law := by
  unfold hydrate
  cases lookup p.1.law <;> rfl

theorem mem_lawIds_of_mem (ths : List (Hit × String)) (p : Hit × String) (i : Nat)
    (hp : p ∈ ths) (hl : p.1.law = some i) : i ∈ lawIds ths := by
  unfold lawIds
  rw [List.mem_dedup]
  exact List.mem_filterMap.mpr ⟨p, hp, hl⟩

theorem bulk_eq_lookup (c : Collections) (db : List LawRow) (p : Hit × String)
    (hp : p ∈ taggedHits c) :
    dictGet (inBulk db (lawIds (taggedHits c))) p.1.law = lawLookup db p.1.law := by
  cases hl : p.1.law with
  | none => rfl
  | some i =>
    have hi : i ∈ lawIds (taggedHits c) := mem_lawIds_of_mem _ p i hp hl
    simp [dictGet, inBulk, lawLookup, hi]

theorem search_eq_of_ne (q : String) (c : Collections) (db : List LawRow) (hq : q ≠ "") :
    search q c db =
      ((taggedHits c).map (hydrate (dictGet (inBulk db (lawIds (taggedHits c))))),
       ["sections", "schedules", "appendices"]) := by
  simp [search, hq]

/-! ## Claim theorems -/

/-- C1: the claim says each record-opening directive yields exactly one
persisted record. The code runs four leftover parser loops and the second
and fourth each flush the open item, so the single @SECTION directive of
exA is persisted twice: one run yields two Section rows, not one. -/
theorem c1_two_records_for_single_directive :
    countOpenDirectives exA = 1 ∧
    run_import_logic (some exA) = Except.ok (importResult exA) ∧
    totalRecords (importResult exA) = 2 := ⟨rfl, rfl, rfl⟩

/-- C2: the claim says the Law record carries the AI-prepared text field.
In laws/models.py the assignment of ai_prepared_text sits at module level
(line 50), outside the class Law body, so the field is not among the Law
model fields and the read in run_import_logic cannot succeed on a Law
loaded from the database. -/
theorem c2_ai_prepared_text_not_a_law_field :
    "ai_prepared_text" ∈ modelsModuleLevelFields ∧
    "ai_prepared_text" ∉ lawModelFields := by decide

/-- C3: the claim says the scenario input yields exactly one Section with
the given fields. Running the import on exC3 persists that Section twice
(the second and fourth parser passes each flush it), and nothing else. -/
theorem c3_scenario_yields_two_identical_sections :
    importResult exC3 =
      { sections :=
          [⟨"PART I", "CH 1", "S.1", "Citation", "Body text."⟩,
           ⟨"PART I", "CH 1", "S.1", "Citation", "Body text."⟩],
        schedules := [],
        appendices := [] } := rfl

/-- C4: the claim says a Section opened after @PART with no intervening
@CHAPTER is never persisted with the chapter label current before that
@PART. Only the fourth parser pass resets the chapter label; the second
pass does not, so on exC4 the section S.5 opened after @PART P2 is
persisted once with the stale chapter label C1 and once with the empty
label. -/
theorem c4_stale_chapter_label_survives_part_reset :
    (importResult exC4).sections.map (fun r => (r.section_number, r.chapter_heading)) =
      [("S.5", "C1"), ("S.5", "")] := rfl

/-- C5: the claim says empty Part or Chapter labels are materialized as
the heading Main. The importer stores the captured labels verbatim: on
exA, whose @SECTION precedes any @PART or @CHAPTER, every persisted
Section carries empty part and chapter headings and no Main heading is
created anywhere. -/
theorem c5_empty_labels_persisted_empty_not_main :
    (importResult exA).sections.map (fun r => (r.part_heading, r.chapter_heading)) =
      [("", ""), ("", "")] := rfl

/-- C6: the claim says no two Section rows of the same chapter share a
section number. One import run of exA persists two Section rows with the
same chapter heading and the same section number, so the pair is not
unique (and the Section model declares no uniqueness constraint on it). -/
theorem c6_duplicate_chapter_number_pair_after_import :
    (importResult exA).sections.map (fun r => (r.chapter_heading, r.section_number)) =
      [("", "S.1"), ("", "S.1")] := rfl

/-- C7: importing with empty or absent AI-prepared text raises the
missing-text error before any parsing, and the admin action rolls the
transaction back, leaving the descendant rows of the Law exactly as they
were and reporting the error message. -/
theorem c7_empty_text_error_and_rollback (db : LawDB) (ai : Option String)
    (h : ai = none ∨ ai = some "") :
    run_import_logic ai = Except.error importEmptyMsg ∧
    importEmptyMsg = "The \x27AI-Prepared Text\x27 field is empty. Cannot import." ∧
    import_from_ai_text db ai =
      (db, some ("An error occurred: " ++ importEmptyMsg ++
                 ". Transaction has been rolled back.")) := by
  rcases h with h | h <;> subst h <;> exact ⟨rfl, rfl, rfl⟩

theorem c7_empty_text_error_and_rollback_witness :
    ((none : Option String) = none ∨ (none : Option String) = some "") ∧
    (run_import_logic none = Except.error importEmptyMsg ∧
     importEmptyMsg = "The \x27AI-Prepared Text\x27 field is empty. Cannot import." ∧
     import_from_ai_text emptyDB none =
       (emptyDB, some ("An error occurred: " ++ importEmptyMsg ++
                       ". Transaction has been rolled back."))) :=
  ⟨Or.inl rfl, c7_empty_text_error_and_rollback emptyDB none (Or.inl rfl)⟩

/-- C8: a search with an empty query string returns the empty result list
and issues no calls to any of the three external collections. -/
theorem c8_empty_query_no_results_no_calls (c : Collections) (db : List LawRow) :
    search "" c db = ([], []) := rfl

/-- C9: for a nonempty query, the result list contains every hit of the
three collections, and every result whose Document reference does not
resolve in the Law table carries the sentinel title and an empty slug;
the view returns the full list rather than raising. -/
theorem c9_unresolved_reference_gets_sentinel (q : String) (c : Collections)
    (db : List LawRow) (hq : q ≠ "") :
    (search q c db).1.length =
      c.sections.length + c.schedules.length + c.appendices.length ∧
    ∀ r ∈ (search q c db).1, lawLookup db r.law = none →
      r.law_title = "Error: Law not found" ∧ r.law_slug = "" := by
  rw [search_eq_of_ne q c db hq]
  constructor
  · simp [taggedHits, Nat.add_assoc]
  · intro r hr hnone
    simp only [List.mem_map] at hr
    obtain ⟨p, hp, hpr⟩ := hr
    have hlaw : r.law = p.1.law := by
      rw [← hpr]
      exact hydrate_law_eq _ p
    have hres : dictGet (inBulk db (lawIds (taggedHits c))) p.1.law = none := by
      rw [bulk_eq_lookup c db p hp, ← hlaw]
      exact hnone
    rw [← hpr]
    unfold hydrate
    rw [hres]
    exact ⟨rfl, rfl⟩

def c9wC : Collections := ⟨[⟨some 7, "hit-one"⟩], [], []⟩

theorem c9_unresolved_reference_gets_sentinel_witness :
    ("stale" ≠ "") ∧
    ((search "stale" c9wC []).1.length =
       c9wC.sections.length + c9wC.schedules.length + c9wC.appendices.length ∧
     ∀ r ∈ (search "stale" c9wC []).1, lawLookup [] r.law = none →
       r.law_title = "Error: Law not found" ∧ r.law_slug = "") :=
  ⟨by decide, c9_unresolved_reference_gets_sentinel "stale" c9wC [] (by decide)⟩

/-- C10: for a nonempty query, every id consulted by the batch lookup
comes from a hit that carries a law key, so a hit without one is excluded
from the lookup; such a hit is still included in the returned list,
tagged with the sentinel title and an empty slug. -/
theorem c10_missing_law_key_excluded_but_returned (q : String) (c : Collections)
    (db : List LawRow) (hq : q ≠ "") :
    (∀ i ∈ lawIds (taggedHits c), ∃ p, p ∈ taggedHits c ∧ p.1.law = some i) ∧
    (search q c db).1.length = (taggedHits c).length ∧
    ∀ r ∈ (search q c db).1, r.law = none →
      r.law_title = "Error: Law not found" ∧ r.law_slug = "" := by
  refine ⟨?_, ?_, ?_⟩
  · intro i hi
    unfold lawIds at hi
    rw [List.mem_dedup] at hi
    exact List.mem_filterMap.mp hi
  · rw [search_eq_of_ne q c db hq]
    simp
  · rw [search_eq_of_ne q c db hq]
    intro r hr hnone
    simp only [List.mem_map] at hr
    obtain ⟨p, hp, hpr⟩ := hr
    have hlaw : p.1.law = none := by
      rw [← hydrate_law_eq (dictGet (inBulk db (lawIds (taggedHits c)))) p, hpr]
      exact hnone
    rw [← hpr]
    unfold hydrate
    rw [hlaw]
    exact ⟨rfl, rfl⟩

def c10wC : Collections := ⟨[⟨none, "no-law-key"⟩], [], []⟩

theorem c10_missing_law_key_excluded_but_returned_witness :
    ("orphan" ≠ "") ∧
    ((∀ i ∈ lawIds (taggedHits c10wC), ∃ p, p ∈ taggedHits c10wC ∧ p.1.law = some i) ∧
     (search "orphan" c10wC []).1.length = (taggedHits c10wC).length ∧
     ∀ r ∈ (search "orphan" c10wC []).1, r.law = none →
       r.law_title = "Error: Law not found" ∧ r.law_slug = "") :=
  ⟨by decide, c10_missing_law_key_excluded_but_returned "orphan" c10wC [] (by decide)⟩
